import Mathlib

/-!
Verification of the source-type detection and extraction routing subsystem of
the `ai-daily-tech-news-automation` repository, as a shallow embedding.

The embedding translates, from the Python source:
  * `src/detection/source_detector.py` (`SourceDetector.detect` and helpers),
  * `src/extractors/rss_extractor.py` (`RSSExtractor.extract`),
  * `src/extractors/html_extractor.py` (`HTMLExtractor.extract`),
  * `src/extractors/dynamic_extractor.py` (`DynamicExtractor.extract`),
  * `src/scraper/news_scraper.py` (`UniversalScraper.scrape_url` / `scrape_all`),
  * `src/utils/rate_limiter.py` (`RateLimiter.wait`),
  * `src/utils/text_cleaner.py` (`get_domain_name`).

External collaborators (the `requests`, `feedparser`, `trafilatura`,
`playwright`, `validators` libraries and the wall clock) are modelled as an
explicit environment record of oracles; Python exceptions are modelled with
`Except String`; wall-clock time in the rate limiter is modelled with `ℚ`
under a discrete-event semantics of the single process-wide lock.
-/

/-- Python `str.lower` on ASCII strings, computed characterwise. -/
def strToLower (s : String) : String :=
  String.mk (s.data.map Char.toLower)

/-- Python `s.startswith(pat)`, computed on character lists. -/
def pyStartsWith (s pat : String) : Bool :=
  pat.data.isPrefixOf s.data

/-- Python `s.endswith(pat)`, computed on character lists. -/
def pyEndsWith (s pat : String) : Bool :=
  pat.data.isSuffixOf s.data

/-- Python `s.strip()`: drop whitespace from both ends. -/
def pyStrip (s : String) : String :=
  String.mk (((s.data.dropWhile Char.isWhitespace).reverse.dropWhile Char.isWhitespace).reverse)

/-- Split a character list at the first occurrence of a pattern, returning
the parts before and after it, or `none` when the pattern does not occur. -/
def splitFirstSub (pat : List Char) : List Char → Option (List Char × List Char)
  | [] => if pat.isEmpty then some ([], []) else none
  | c :: cs =>
    if pat.isPrefixOf (c :: cs) then some ([], (c :: cs).drop pat.length)
    else
      match splitFirstSub pat cs with
      | some (a, b) => some (c :: a, b)
      | none => none

/-- Python's substring test `pat in s`, on character lists. -/
def listHasSub (pat : List Char) : List Char → Bool
  | [] => pat.isEmpty
  | c :: cs => pat.isPrefixOf (c :: cs) || listHasSub pat cs

/-- Python's `pat in s` on strings (case sensitive, as in the source). -/
def pyIn (pat s : String) : Bool :=
  listHasSub pat.toList s.toList

/-- Python regex `\w` on ASCII inputs: letters, digits, underscore. -/
def isWordChar (c : Char) : Bool :=
  c.isAlphanum || c == '_'

/-- Models `re.search(lit ++ "\\w+", s)` restricted to a literal followed by at least
one word character: some suffix of `s` starts with `lit` followed by a word
character. Matching is done on the already-lowercased string. -/
def searchLitWord (pat : List Char) : List Char → Bool
  | [] => false
  | c :: cs =>
      (pat.isPrefixOf (c :: cs) &&
        (match (c :: cs).drop pat.length with
          | d :: _ => isWordChar d
          | [] => false))
      || searchLitWord pat cs

/-- Python `s.rstrip("/")`: drop every trailing slash. -/
def rstripSlash (s : String) : String :=
  String.mk ((s.toList.reverse.dropWhile (fun c => c == '/')).reverse)

/-- Split an absolute URL into scheme and remainder, modelling
`urllib.parse.urlparse` scheme recognition (a scheme is a leading
alphabetic-then-alphanumeric run before `"://"`). Returns `none` when the
string has no such scheme part. -/
def splitScheme (url : String) : Option (String × String) :=
  match splitFirstSub "://".data url.data with
  | some (s, rest) =>
      if !s.isEmpty && (s.headD 'a').isAlpha &&
          s.all (fun c => c.isAlphanum || c == '+' || c == '-' || c == '.') then
        some (String.mk s, String.mk rest)
      else
        none
  | none => none

/-- The netloc (host[:port]) part of the remainder after the scheme. -/
def netlocOfRest (rest : String) : String :=
  String.mk (rest.toList.takeWhile (fun c => c != '/' && c != '?' && c != '#'))

/-- Models `urllib.parse.urlparse(url).netloc` for absolute http(s) URLs;
empty for scheme-less strings, as in `urlparse`. -/
def urlparseNetloc (url : String) : String :=
  match splitScheme url with
  | some (_, rest) => netlocOfRest rest
  | none => ""

/-- Models `urllib.parse.urlparse(url).path` for absolute http(s) URLs. -/
def urlparsePath (url : String) : String :=
  match splitScheme url with
  | some (_, rest) =>
      String.mk ((rest.toList.dropWhile (fun c => c != '/' && c != '?' && c != '#')).takeWhile
        (fun c => c != '?' && c != '#'))
  | none => String.mk (url.toList.takeWhile (fun c => c != '?' && c != '#'))

/-- Models `get_domain_name` from `src/utils/text_cleaner.py`: netloc with a leading
`www.` stripped (the `except` branch of the source is unreachable because
`urlparse` does not raise on strings). -/
def get_domain_name (url : String) : String :=
  let domain := urlparseNetloc url
  if pyStartsWith domain "www." then String.mk (domain.data.drop 4) else domain

/-- One step of RFC 3986 `remove_dot_segments` over `/`-separated segments. -/
def rdsStep (acc : List String) (seg : String) : List String :=
  if seg = "." then acc
  else if seg = ".." then (if acc.length > 1 then acc.dropLast else acc)
  else acc ++ [seg]

/-- Split a character list on a separator character. -/
def splitOnChar (sep : Char) : List Char → List (List Char)
  | [] => [[]]
  | c :: cs =>
    if c == sep then [] :: splitOnChar sep cs
    else
      match splitOnChar sep cs with
      | seg :: rest => (c :: seg) :: rest
      | [] => [[c]]

/-- Join segments with a separator character. -/
def joinWithChar (sep : Char) : List (List Char) → List Char
  | [] => []
  | [seg] => seg
  | seg :: rest => seg ++ sep :: joinWithChar sep rest

/-- Dot-segment removal on a path, modelling the resolution performed by
`urllib.parse.urljoin`. -/
def removeDotSegments (p : String) : String :=
  let segs := (splitOnChar '/' p.data).map String.mk
  let core := segs.foldl rdsStep []
  let core :=
    match segs.getLast? with
    | some s => if s = "." || s = ".." then core ++ [""] else core
    | none => core
  String.mk (joinWithChar '/' (core.map String.data))

/-- The directory part of a base path (through the last `/`), `/` when the
base path has no slash, as in reference resolution for URLs with authority. -/
def dirOf (p : String) : String :=
  match p.toList.reverse.dropWhile (fun c => c != '/') with
  | [] => "/"
  | r => String.mk r.reverse

/-- Models `urllib.parse.urljoin(base, url)` (RFC 3986 reference resolution)
for absolute http(s) base URLs, the only way the repository calls it. -/
def urljoin (base url : String) : String :=
  if url = "" then base
  else
    match splitScheme url with
    | some _ => url
    | none =>
      match splitScheme base with
      | none => url
      | some (sch, rest) =>
        if pyStartsWith url "//" then sch ++ ":" ++ url
        else
          let netl := netlocOfRest rest
          let bpq := String.mk (rest.toList.dropWhile (fun c => c != '/' && c != '?' && c != '#'))
          let bpath := String.mk (bpq.toList.takeWhile (fun c => c != '?' && c != '#'))
          let rpath := String.mk (url.toList.takeWhile (fun c => c != '?' && c != '#'))
          let rsuffix := String.mk (url.toList.dropWhile (fun c => c != '?' && c != '#'))
          let merged :=
            if pyStartsWith rpath "/" then rpath
            else if rpath = "" then bpath
            else dirOf bpath ++ rpath
          sch ++ "://" ++ netl ++ removeDotSegments merged ++ rsuffix

/-- Models `SourceType` from `src/models.py`. -/
inductive SourceType
  | RSS_FEED
  | ATOM_FEED
  | STATIC_HTML
  | DYNAMIC_HTML
  | REDDIT
  | STACKOVERFLOW
  | GENERIC_FORUM
  | UNSUPPORTED
  | UNKNOWN
deriving DecidableEq, Repr

/-- The `.value` string of each `SourceType` enum member, from `src/models.py`. -/
def SourceType.value : SourceType → String
  | .RSS_FEED => "rss_feed"
  | .ATOM_FEED => "atom_feed"
  | .STATIC_HTML => "static_html"
  | .DYNAMIC_HTML => "dynamic_html"
  | .REDDIT => "reddit"
  | .STACKOVERFLOW => "stackoverflow"
  | .GENERIC_FORUM => "generic_forum"
  | .UNSUPPORTED => "unsupported"
  | .UNKNOWN => "unknown"

/-- Models `SourceDetector._check_platform_patterns`: `re.search` of the platform
patterns (case-insensitive), in the insertion order of the pattern dict.
`reddit\.com/r/\w+` and `reddit\.com/user/\w+` map to `REDDIT`;
`stackoverflow\.com/questions`, `stackoverflow\.com/search`,
`stackoverflow\.com/questions/tagged` map to `STACKOVERFLOW`. -/
def checkPlatformPatterns (url : String) : Option SourceType :=
  let l := url.data.map Char.toLower
  if searchLitWord "reddit.com/r/".toList l || searchLitWord "reddit.com/user/".toList l then
    some SourceType.REDDIT
  else if listHasSub "stackoverflow.com/questions".toList l
      || listHasSub "stackoverflow.com/search".toList l
      || listHasSub "stackoverflow.com/questions/tagged".toList l then
    some SourceType.STACKOVERFLOW
  else
    none

/-- Models `SourceDetector._is_feed_url`: the URL string matches one of the
end-anchored feed patterns `/feed/?$`, `/rss/?$`, `/atom/?$`, `\.xml$`,
`\.rss$`, case-insensitively. -/
def isFeedUrl (url : String) : Bool :=
  let u := strToLower url
  pyEndsWith u "/feed" || pyEndsWith u "/feed/" ||
  pyEndsWith u "/rss" || pyEndsWith u "/rss/" ||
  pyEndsWith u "/atom" || pyEndsWith u "/atom/" ||
  pyEndsWith u ".xml" || pyEndsWith u ".rss"

/-- A `datetime` value, represented by its `strftime("%Y-%m-%d")` rendering,
which is the only way the orchestrator consumes timestamps. -/
structure PyDateTime where
  ymd : String
deriving DecidableEq, Repr

/-- Parsed JSON produced by `trafilatura.extract(..., output_format=json)`:
the fields the repository reads. `none` models an absent (or null) key. -/
structure TrafilaturaData where
  text : Option String := none
  title : Option String := none
  author : Option String := none
  date : Option String := none
deriving Repr

/-- A `feedparser` entry: the fields read by `RSSExtractor.extract`. `none`
models an absent key; `contentList` models `entry.content` (a list of values)
with `none` when the `content` key is absent. -/
structure FeedEntry where
  title : Option String := none
  link : Option String := none
  published_parsed : Option PyDateTime := none
  updated_parsed : Option PyDateTime := none
  summary : Option String := none
  description : Option String := none
  contentList : Option (List String) := none
  author : Option String := none
deriving Repr

/-- A `feedparser.parse` result: the fields the repository reads. -/
structure Feed where
  bozo : Bool := false
  entries : List FeedEntry := []
deriving Repr

/-- The external collaborators of the subsystem, as oracles. A `none` result
models the library signalling failure without raising (or an inner handler
having swallowed the exception); an `Except.error` models a raised exception. -/
structure ScrapeEnv where
  /-- Models `validators.url(url)` truthiness. -/
  validUrl : String → Bool
  /-- Models `requests.head(url).headers.get('Content-Type','')` on success, `none`
  when the request raised (swallowed inside `_get_content_type`). -/
  headContentType : String → Option String := fun _ => none
  /-- Models `requests.get(url).text` on success, `none` when the request raised
  (swallowed inside `_analyze_content`). -/
  getText : String → Option String := fun _ => none
  /-- Models `BeautifulSoup(content,'xml')` followed by `soup.find('rss') or
  soup.find('feed')`: whether an `rss` or `feed` element is found; `none`
  when parsing raised (swallowed by the inner `try`). -/
  xmlHasRssOrFeed : String → Option Bool := fun _ => none
  /-- Models `feedparser.parse(url)`; an error models a raised exception. -/
  feedparse : String → Except String Feed := fun _ => .ok {}
  /-- Models `trafilatura.fetch_url(url)`: downloaded markup, or `None`. -/
  fetchUrl : String → Option String := fun _ => none
  /-- Models `trafilatura.extract(markup, ...)` parsed from its JSON, or `None`. -/
  extractData : String → Option TrafilaturaData := fun _ => none
  /-- Models `datetime.fromisoformat(s)`, `none` when it raised (swallowed). -/
  fromIso : String → Option PyDateTime := fun _ => none
  /-- Whether `from playwright.sync_api import sync_playwright` succeeds. -/
  playwrightAvailable : Bool := true
  /-- Playwright navigation + `page.content()` for a URL: rendered markup,
  or a raised browser/navigation exception. -/
  render : String → Except String String := fun _ => .error "navigation failed"
  /-- Models `datetime.now()`. -/
  now : PyDateTime := ⟨"1970-01-01"⟩

/-- Models `SourceDetector._get_content_type`: lowered Content-Type header, `none`
when the HEAD request raised. -/
def getContentType (env : ScrapeEnv) (url : String) : Option String :=
  (env.headContentType url).map strToLower

/-- Models `SourceDetector._analyze_content`: fetch the page text, keep the first
5000 characters, look for feed markers, then a lenient XML parse, then
client-rendered-framework markers; `none` on no signal or fetch failure. -/
def analyzeContent (env : ScrapeEnv) (url : String) : Option SourceType :=
  match env.getText url with
  | none => none
  | some t =>
    let content := String.mk (t.toList.take 5000)
    if pyIn "<rss" content || pyIn "<feed" content || pyIn "xmlns:atom" content ||
        pyIn "xmlns=\"http://www.w3.org/2005/Atom" content then
      some SourceType.RSS_FEED
    else
      match env.xmlHasRssOrFeed content with
      | some true => some SourceType.RSS_FEED
      | _ =>
        if pyIn "__NEXT_DATA__" content || pyIn "vue-server-renderer" content ||
            pyIn "ng-version" content then
          some SourceType.DYNAMIC_HTML
        else
          none

/-- Models `SourceDetector.detect`: platform patterns, then feed URL shape, then the
HEAD Content-Type probe, then content analysis, then the `STATIC_HTML`
default. Every potentially raising operation inside the outer `try` is
already handled by an inner `except` (modelled by the `Option` oracles), so
the embedded function is total and the outer `except` branch — which would
also return `STATIC_HTML` — is unreachable. -/
def detect (env : ScrapeEnv) (url : String) : SourceType :=
  match checkPlatformPatterns url with
  | some t => t
  | none =>
    if isFeedUrl url then SourceType.RSS_FEED
    else
      let step3 :=
        match getContentType env url with
        | some ct => ct ≠ "" && (pyIn "xml" ct || pyIn "rss" ct || pyIn "atom" ct)
        | none => false
      if step3 then SourceType.RSS_FEED
      else
        match analyzeContent env url with
        | some t => t
        | none => SourceType.STATIC_HTML

/-- Models `ContentItem` from `src/models.py` (metadata as a string association
list; the extractors only ever store the `source_name` key). -/
structure ContentItem where
  source_url : String
  source_type : SourceType
  title : String
  content : String
  published_at : Option PyDateTime := none
  author : Option String := none
  metadata : List (String × String) := []
deriving Repr

/-- Models `dict.get` on the metadata association list. -/
def metaGet (m : List (String × String)) (k : String) : Option String :=
  (m.find? (fun p => p.1 == k)).map (fun p => p.2)

/-- Models `SourceConfig` from `src/models.py` (the fields the subsystem reads). -/
structure SourceConfig where
  url : String
  name : String
  source_type : Option SourceType := none
  max_items : Int := 10
deriving Repr

/-- Models `SourceConfig.__post_init__` validation: construction raises `ValueError`
when the URL is empty or lacks an http(s) scheme, or when `max_items < 1`. -/
def mkSourceConfig (url name : String) (source_type : Option SourceType)
    (max_items : Int) : Except String SourceConfig :=
  if url = "" || !(pyStartsWith url "http://" || pyStartsWith url "https://") then
    Except.error ("Invalid URL: " ++ url)
  else if max_items < 1 then
    Except.error "max_items must be at least 1"
  else
    Except.ok { url := url, name := name, source_type := source_type, max_items := max_items }

/-- The body text chosen by `RSSExtractor.extract` before the `content` key
fallback: `entry.get('summary','') or entry.get('description','')`. -/
def effSummary (e : FeedEntry) : String :=
  let s := e.summary.getD ""
  if s ≠ "" then s else e.description.getD ""

/-- The per-entry body of the `RSSExtractor.extract` loop: title defaulting,
link absolutization via `urljoin`, timestamp from `published_parsed or
updated_parsed`, body from summary/description/content. The error case is
the `IndexError` of `entry.content[0]` on a present-but-empty content list,
which the outer handler would re-raise as an `ExtractionError`. -/
def mkRssItem (cfg : SourceConfig) (e : FeedEntry) : Except String ContentItem :=
  let title := e.title.getD "No Title"
  let link0 := e.link.getD cfg.url
  let link := if link0 ≠ "" && !(pyStartsWith link0 "http") then urljoin cfg.url link0 else link0
  let published := e.published_parsed.orElse (fun _ => e.updated_parsed)
  let s := effSummary e
  match (if s = "" then e.contentList else none) with
  | some [] => Except.error "list index out of range"
  | some (v :: _) =>
      Except.ok { source_url := link, source_type := SourceType.RSS_FEED, title := title,
                  content := v, published_at := published, author := e.author,
                  metadata := [("source_name", cfg.name)] }
  | none =>
      Except.ok { source_url := link, source_type := SourceType.RSS_FEED, title := title,
                  content := s, published_at := published, author := e.author,
                  metadata := [("source_name", cfg.name)] }

/-- Models `RSSExtractor.extract`: parse the feed, then build one item per entry up
to `max_items` (the loop breaks once `count >= max_items`); any exception is
re-raised as `ExtractionError("Failed to extract RSS: ...")`. The bozo flag
only produces a log line. -/
def rssExtract (env : ScrapeEnv) (cfg : SourceConfig) : Except String (List ContentItem) :=
  match env.feedparse cfg.url with
  | Except.error msg => Except.error ("Failed to extract RSS: " ++ msg)
  | Except.ok feed =>
    match (feed.entries.take cfg.max_items.toNat).mapM (mkRssItem cfg) with
    | Except.ok items => Except.ok items
    | Except.error msg => Except.error ("Failed to extract RSS: " ++ msg)

/-- Models `HTMLExtractor.extract`: download via trafilatura (failure yields an
empty list), extract to JSON (no content yields an empty list), then build
exactly one item; the date string is parsed with `fromisoformat`, parse
failures swallowed. -/
def htmlExtract (env : ScrapeEnv) (cfg : SourceConfig) : Except String (List ContentItem) :=
  match env.fetchUrl cfg.url with
  | none => Except.ok []
  | some downloaded =>
    match env.extractData downloaded with
    | none => Except.ok []
    | some d =>
      let published :=
        match d.date with
        | some ds => if ds ≠ "" then env.fromIso ds else none
        | none => none
      Except.ok [{ source_url := cfg.url, source_type := SourceType.STATIC_HTML,
                   title := d.title.getD "No Title", content := d.text.getD "",
                   published_at := published, author := some (d.author.getD "Unknown"),
                   metadata := [("source_name", cfg.name)] }]

/-- The bot-challenge markers tested by `DynamicExtractor.extract`. -/
def botChallenge (html : String) : Bool :=
  pyIn "Checking if the site connection is secure" html ||
  pyIn "Verification" html || pyIn "Access Denied" html

/-- Models `DynamicExtractor.extract`: a missing Playwright dependency raises
`ExtractionError("Playwright dependency missing.")`; a navigation/browser
exception is re-raised as an `ExtractionError`; a bot-challenge page or an
empty render or no extractable content yields an empty list; otherwise one
item is built from the rendered markup. -/
def dynExtract (env : ScrapeEnv) (cfg : SourceConfig) : Except String (List ContentItem) :=
  if !env.playwrightAvailable then
    Except.error "Playwright dependency missing."
  else
    match env.render cfg.url with
    | Except.error e => Except.error ("Failed to extract dynamic content: " ++ e)
    | Except.ok content_html =>
      if botChallenge content_html then Except.ok []
      else if content_html = "" then Except.ok []
      else
        match env.extractData content_html with
        | none => Except.ok []
        | some d =>
          let published :=
            match d.date with
            | some ds => if ds ≠ "" then env.fromIso ds else none
            | none => none
          Except.ok [{ source_url := cfg.url, source_type := SourceType.DYNAMIC_HTML,
                       title := d.title.getD "No Title", content := d.text.getD "",
                       published_at := published, author := d.author,
                       metadata := [("source_name", cfg.name)] }]

/-- The kinds of extractor instances registered by `UniversalScraper`. -/
inductive ExtractorKind
  | rss
  | html
  | dynamic
deriving DecidableEq, Repr

/-- The `self.extractors` routing dict of `UniversalScraper.__init__`. -/
def extractorsTable : SourceType → Option ExtractorKind
  | SourceType.RSS_FEED => some ExtractorKind.rss
  | SourceType.ATOM_FEED => some ExtractorKind.rss
  | SourceType.STATIC_HTML => some ExtractorKind.html
  | SourceType.DYNAMIC_HTML => some ExtractorKind.dynamic
  | SourceType.REDDIT => some ExtractorKind.dynamic
  | SourceType.STACKOVERFLOW => some ExtractorKind.dynamic
  | _ => none

/-- Models `self.extractors.get(source_type, self.fallback_extractor)`: the table
lookup with the `HTMLExtractor` fallback. -/
def extractorFor (t : SourceType) : ExtractorKind :=
  (extractorsTable t).getD ExtractorKind.html

/-- Dispatch one extractor kind. -/
def runExtractorKind (env : ScrapeEnv) : ExtractorKind → SourceConfig → Except String (List ContentItem)
  | ExtractorKind.rss => rssExtract env
  | ExtractorKind.html => htmlExtract env
  | ExtractorKind.dynamic => dynExtract env

/-- Models `extractor.extract(config)` as routed by `scrape_url`. -/
def runExtractor (env : ScrapeEnv) (t : SourceType) (cfg : SourceConfig) :
    Except String (List ContentItem) :=
  runExtractorKind env (extractorFor t) cfg

/-- The pre-routing block of `UniversalScraper.scrape_url` (after URL
validation, before config construction): Reddit and StackOverflow rewrite
rules, otherwise detection. The error values model the `UnboundLocalError`
raised at the `self.logger.info(... source_type.value ...)` line when no
branch assigned `source_type`: a Reddit subreddit/user URL already ending in
`.rss`, or a stackoverflow.com URL without `/questions` or ending in `.rss`. -/
def route (env : ScrapeEnv) (url : String) : Except String (String × SourceType) :=
  if pyIn "reddit.com/r/" url || pyIn "reddit.com/user/" url then
    if !(pyEndsWith url ".rss") && !pyIn "/comments/" url then
      Except.ok (rstripSlash (pyStrip url) ++ ".rss", SourceType.RSS_FEED)
    else if pyIn "/comments/" url then
      Except.ok (url, SourceType.REDDIT)
    else
      Except.error "UnboundLocalError: local variable referenced before assignment"
  else if pyIn "stackoverflow.com" url then
    if pyIn "/questions" url && !(pyEndsWith url ".rss") then
      Except.ok ("https://stackoverflow.com/feeds", SourceType.RSS_FEED)
    else
      Except.error "UnboundLocalError: local variable referenced before assignment"
  else
    Except.ok (url, detect env url)

/-- The standardized output schema of `scrape_url`. -/
structure NormRecord where
  title : String
  link : String
  content : String
  date : String
  source : String
deriving DecidableEq, Repr

/-- The per-item conversion loop body of `scrape_url`: date from the item
timestamp (falling back to `datetime.now()`), source display name from the
caller-supplied name, else the metadata source name, either replaced by the
bare domain of the (possibly rewritten) URL when falsy or equal to the raw
source-type tag. -/
def convertItem (env : ScrapeEnv) (name : String) (sourceType : SourceType)
    (url : String) (item : ContentItem) : NormRecord :=
  let dateVal := item.published_at.getD env.now
  let s0 : Option String := if name ≠ "" then some name else metaGet item.metadata "source_name"
  let sourceName :=
    match s0 with
    | none => get_domain_name url
    | some s => if s = "" || s = sourceType.value then get_domain_name url else s
  { title := item.title, link := item.source_url, content := item.content,
    date := dateVal.ymd, source := sourceName }

/-- Models `UniversalScraper.scrape_url`: URL validation (an invalid URL yields an
empty list), pre-routing (whose `UnboundLocalError` propagates, being raised
before the `try` block), config construction (whose `ValueError` also
propagates), extraction and conversion inside the `try` (any exception there
is logged and converted to an empty list). The rate-limiter `wait` call
affects timing only, not the returned value. -/
def scrape_url (env : ScrapeEnv) (url : String) (limit : Int := 10)
    (name : String := "") : Except String (List NormRecord) :=
  if !env.validUrl url then Except.ok []
  else
    match route env url with
    | Except.error e => Except.error e
    | Except.ok (url', sourceType) =>
      match mkSourceConfig url' (if name ≠ "" then name else url') (some sourceType) limit with
      | Except.error e => Except.error e
      | Except.ok config =>
        match runExtractor env sourceType config with
        | Except.error _ => Except.ok []
        | Except.ok items => Except.ok (items.map (convertItem env name sourceType url'))

/-- Models `UniversalScraper.scrape_all`: scrape each non-blank URL in order with
the default empty display name, concatenating the results; an exception that
escapes `scrape_url` aborts the loop (propagates). -/
def scrape_all (env : ScrapeEnv) (urls : List String) (limit : Int := 8) :
    Except String (List NormRecord) :=
  match urls with
  | [] => Except.ok []
  | u :: rest =>
    if pyStrip u ≠ "" then
      match scrape_url env u limit "" with
      | Except.error e => Except.error e
      | Except.ok r =>
        match scrape_all env rest limit with
        | Except.error e => Except.error e
        | Except.ok rs => Except.ok (r ++ rs)
    else
      scrape_all env rest limit

/-- Models `RateLimiter._extract_domain`: `urlparse(url).netloc` (the `except`
branch is unreachable since `urlparse` does not raise on strings). -/
def extract_domain (url : String) : String :=
  urlparseNetloc url

/-- The configuration of `RateLimiter.__init__`. -/
structure RateLimiter where
  requests_per_minute : Int := 30
  default_delay : ℚ := 2
deriving Repr

/-- Models `self.min_delay` computed in `RateLimiter.__init__`:
`60.0 / requests_per_minute if requests_per_minute > 0 else default_delay`. -/
def RateLimiter.min_delay (rl : RateLimiter) : ℚ :=
  if rl.requests_per_minute > 0 then 60 / (rl.requests_per_minute : ℚ) else rl.default_delay

/-- Models `delay = custom_delay or self.default_delay`: a supplied but falsy
(zero) custom delay falls back to the default, as Python `or` does. -/
def effDelay (rl : RateLimiter) (custom : Option ℚ) : ℚ :=
  match custom with
  | some d => if d ≠ 0 then d else rl.default_delay
  | none => rl.default_delay

/-- Association-list lookup modelling `self.last_request` dict access. -/
def lookupLast (m : List (String × ℚ)) (d : String) : Option ℚ :=
  (m.find? (fun p => p.1 == d)).map (fun p => p.2)

/-- Dict update `self.last_request[domain] = t`. -/
def setLast (m : List (String × ℚ)) (d : String) (t : ℚ) : List (String × ℚ) :=
  (d, t) :: m.filter (fun p => p.1 != d)

/-- The mutable state of the rate limiter together with the time at which the
single process-wide lock next becomes free. `time.sleep` inside the `with
self.lock:` block keeps the lock held, so the lock-release time of one call
is the earliest acquisition time of the next. -/
structure LimState where
  last_request : List (String × ℚ) := []
  lock_free : ℚ := 0
deriving Repr

/-- One invocation of `RateLimiter.wait`, arriving at a given wall-clock
time with an optional custom delay. -/
structure WaitCall where
  url : String
  arrival : ℚ
  custom_delay : Option ℚ := none
deriving Repr

/-- The observable timing of one `wait` call: the lock-acquisition time (the
`time.time()` reading), the grant time recorded into `last_request` (the
`time.time()` reading after any sleep), and the return time. -/
structure WaitOutcome where
  domain : String
  acquire : ℚ
  grant : ℚ
  ret : ℚ
deriving DecidableEq, Repr

/-- Discrete-event semantics of `RateLimiter.wait`: the caller acquires the
process-wide lock at `max(arrival, lock_free)`; if the host has a recorded
last-request time and less than `max(min_delay, delay)` has elapsed, it
sleeps the remaining difference while holding the lock; it records the
post-sleep time for the host and releases the lock. Computation time other
than sleeping is idealized as zero. -/
def RateLimiter.waitStep (rl : RateLimiter) (st : LimState) (c : WaitCall) :
    LimState × WaitOutcome :=
  let domain := extract_domain c.url
  let delay := effDelay rl c.custom_delay
  let acquire := max c.arrival st.lock_free
  match lookupLast st.last_request domain with
  | some lastT =>
    let required := max rl.min_delay delay
    let elapsed := acquire - lastT
    let grant := if elapsed < required then acquire + (required - elapsed) else acquire
    (⟨setLast st.last_request domain grant, grant⟩,
     ⟨domain, acquire, grant, grant⟩)
  | none =>
    (⟨setLast st.last_request domain acquire, acquire⟩,
     ⟨domain, acquire, acquire, acquire⟩)

/-- Run a sequence of `wait` calls (in lock-acquisition order), collecting
the outcome of each. -/
def runWaits (rl : RateLimiter) (st : LimState) : List WaitCall → List WaitOutcome
  | [] => []
  | c :: cs =>
    let r := rl.waitStep st c
    r.2 :: runWaits rl r.1 cs

/-- Shared lemma: when the host already has a recorded last-request time, one
`wait` step grants at least `max(min_delay, delay)` after it. -/
theorem waitStep_grant_spacing (rl : RateLimiter) (st : LimState) (c : WaitCall) (lastT : ℚ)
    (h : lookupLast st.last_request (extract_domain c.url) = some lastT) :
    lastT + max rl.min_delay (effDelay rl c.custom_delay) ≤ (rl.waitStep st c).2.grant := by
  unfold RateLimiter.waitStep
  simp only [h]
  set acquire := max c.arrival st.lock_free with hacq
  set required := max rl.min_delay (effDelay rl c.custom_delay) with hreq
  by_cases hlt : acquire - lastT < required
  · simp only [hlt, if_pos]
    have : acquire + (required - (acquire - lastT)) = lastT + required := by ring
    simp [this]
  · simp only [hlt, if_neg, not_false_iff]
    have := not_lt.mp hlt
    linarith

/-- Shared lemma: looking up a freshly set host hits the new entry. -/
theorem lookupLast_setLast (m : List (String × ℚ)) (d : String) (t : ℚ) :
    lookupLast (setLast m d t) d = some t := by
  simp [lookupLast, setLast, List.find?_cons]

/-- Shared lemma: a `wait` step records its grant time for the call's host. -/
theorem waitStep_records_grant (rl : RateLimiter) (st : LimState) (c : WaitCall) :
    lookupLast (rl.waitStep st c).1.last_request (extract_domain c.url) =
      some (rl.waitStep st c).2.grant := by
  unfold RateLimiter.waitStep
  cases h : lookupLast st.last_request (extract_domain c.url) <;>
    simp only [h] <;> exact lookupLast_setLast ..

/-- The rate limiter configured as in the spec example: 60 requests per
minute, the default 2.0-second delay. -/
def rl60 : RateLimiter :=
  { requests_per_minute := 60, default_delay := 2 }

/-- A concurrent schedule: two calls for host `a.com` at times 0 and 0,
then one call for host `b.com` at time 1, in lock-acquisition order. -/
def demoCalls : List WaitCall :=
  [⟨"https://a.com/x", 0, none⟩, ⟨"https://a.com/y", 0, none⟩, ⟨"https://b.com/z", 1, none⟩]

/-- Shared computation: the trace of `demoCalls`. The second `a.com` call
sleeps until time 2 holding the lock; the `b.com` call arriving at time 1
can only acquire the lock, and hence return, at time 2. -/
theorem demoTrace :
    runWaits rl60 {} demoCalls =
      [⟨"a.com", 0, 0, 0⟩, ⟨"a.com", 0, 2, 2⟩, ⟨"b.com", 2, 2, 2⟩] := by
  have hd1 : extract_domain "https://a.com/x" = "a.com" := by decide
  have hd2 : extract_domain "https://a.com/y" = "a.com" := by decide
  have hd3 : extract_domain "https://b.com/z" = "b.com" := by decide
  have hmd : rl60.min_delay = 1 := by
    unfold RateLimiter.min_delay rl60
    norm_num
  have hed : effDelay rl60 none = 2 := by simp [effDelay, rl60]
  have hb : (("a.com" == "b.com") : Bool) = false := by decide
  have s1 : rl60.waitStep ⟨[], 0⟩ ⟨"https://a.com/x", 0, none⟩ =
      (⟨[("a.com", 0)], 0⟩, ⟨"a.com", 0, 0, 0⟩) := by
    simp [RateLimiter.waitStep, hd1, lookupLast, setLast, List.find?]
  have s2 : rl60.waitStep ⟨[("a.com", 0)], 0⟩ ⟨"https://a.com/y", 0, none⟩ =
      (⟨[("a.com", 2)], 2⟩, ⟨"a.com", 0, 2, 2⟩) := by
    simp [RateLimiter.waitStep, hd2, lookupLast, setLast, List.find?, hmd, hed]
  have s3 : rl60.waitStep ⟨[("a.com", 2)], 2⟩ ⟨"https://b.com/z", 1, none⟩ =
      (⟨[("b.com", 2), ("a.com", 2)], 2⟩, ⟨"b.com", 2, 2, 2⟩) := by
    simp [RateLimiter.waitStep, hd3, lookupLast, setLast, List.find?, hb]
  simp [runWaits, demoCalls, s1, s2, s3]

/-- C9 counterexample: with the single process-wide lock held across
`time.sleep`, the `b.com` caller that arrives at time 1 — a host with no
previous request, so it observes "no wait needed" — only returns at time 2,
blocked behind the sleeping `a.com` caller. The claim that concurrent wait
calls for two different hosts never block on each other is therefore false
on this code. -/
theorem rateLimiter_crosshost_block_counterexample :
    runWaits rl60 {} demoCalls =
      [⟨"a.com", 0, 0, 0⟩, ⟨"a.com", 0, 2, 2⟩, ⟨"b.com", 2, 2, 2⟩] ∧
    lookupLast (LimState.mk [] 0).last_request "b.com" = none ∧
    ((1 : ℚ) < 2) :=
  ⟨demoTrace, rfl, by norm_num⟩

/-- C9 (amended): the rate limiter does serialize callers per host — a wait
step for a host with a recorded last-request time is granted at least
`min_delay` after it, so two concurrent same-host callers can never both be
granted within the minimum interval of each other — but concurrent wait
calls for two different hosts can block on each other, because the sleep
happens while the single process-wide lock is held: in the schedule
`demoCalls` the `b.com` caller returns at time 2 despite arriving at 1. -/
theorem rateLimiter_serialization_amended :
    (∀ (rl : RateLimiter) (st : LimState) (c : WaitCall) (lastT : ℚ),
      lookupLast st.last_request (extract_domain c.url) = some lastT →
      lastT + rl.min_delay ≤ (rl.waitStep st c).2.grant) ∧
    (runWaits rl60 {} demoCalls).map WaitOutcome.ret = [0, 2, 2] ∧
    ((1 : ℚ) < 2) := by
  refine ⟨fun rl st c lastT h => ?_, by rw [demoTrace]; simp, by norm_num⟩
  have h1 := waitStep_grant_spacing rl st c lastT h
  have hm : rl.min_delay ≤ max rl.min_delay (effDelay rl c.custom_delay) := le_max_left _ _
  linarith

/-- A state in which host `a.com` was last granted at time 0. -/
def stW : LimState :=
  { last_request := [("a.com", 0)], lock_free := 0 }

/-- A follow-up call for host `a.com` arriving at time 0. -/
def cW : WaitCall :=
  ⟨"https://a.com/q", 0, none⟩

/-- C9 witness: the serialization half applied at a concrete state and call. -/
theorem rateLimiter_serialization_amended_witness :
    (0 : ℚ) + rl60.min_delay ≤ (rl60.waitStep stW cW).2.grant :=
  rateLimiter_serialization_amended.1 rl60 stW cW 0 rfl

/-- C10: the interval actually enforced between consecutive grants to one
host is `max(60 / requests_per_minute, d)` with `d` the effective delay
(the caller's custom delay when supplied and truthy, else the configured
default, 2.0 by default): the new recorded grant time for the host is the
step's grant, and it lies at least that maximum after the previous recorded
grant — strictly more than the spec's `60 / rate` interval whenever the
effective delay is larger. -/
theorem rateLimiter_enforced_interval
    (rl : RateLimiter) (st : LimState) (c : WaitCall) (lastT : ℚ)
    (hrpm : rl.requests_per_minute > 0)
    (h : lookupLast st.last_request (extract_domain c.url) = some lastT) :
    lookupLast (rl.waitStep st c).1.last_request (extract_domain c.url) =
      some (rl.waitStep st c).2.grant ∧
    lastT + max (60 / (rl.requests_per_minute : ℚ)) (effDelay rl c.custom_delay) ≤
      (rl.waitStep st c).2.grant := by
  refine ⟨waitStep_records_grant rl st c, ?_⟩
  have h1 := waitStep_grant_spacing rl st c lastT h
  have hmd : rl.min_delay = 60 / (rl.requests_per_minute : ℚ) := by
    unfold RateLimiter.min_delay
    rw [if_pos hrpm]
  rw [hmd] at h1
  exact h1

/-- C10 witness: with 60 requests per minute (interval 1s) and the default
2.0s delay, the enforced spacing at a concrete state is `max(1, 2) = 2`. -/
theorem rateLimiter_enforced_interval_witness :
    lookupLast (rl60.waitStep stW cW).1.last_request (extract_domain cW.url) =
      some (rl60.waitStep stW cW).2.grant ∧
    (0 : ℚ) + max (60 / (rl60.requests_per_minute : ℚ)) (effDelay rl60 cW.custom_delay) ≤
      (rl60.waitStep stW cW).2.grant :=
  rateLimiter_enforced_interval rl60 stW cW 0 (by decide) rfl

/-- The nine members of the `SourceType` enumeration. -/
def allSourceTypes : List SourceType :=
  [SourceType.RSS_FEED, SourceType.ATOM_FEED, SourceType.STATIC_HTML,
   SourceType.DYNAMIC_HTML, SourceType.REDDIT, SourceType.STACKOVERFLOW,
   SourceType.GENERIC_FORUM, SourceType.UNSUPPORTED, SourceType.UNKNOWN]

/-- C4: `detect` is total — for every input string, including malformed
URLs, and every behaviour of the network, it returns a member of the closed
`SourceType` enumeration (the embedded counterpart of "never raises": every
potentially raising operation inside the outer `try` is handled by an inner
`except`) — and when every internal probe fails (the HEAD request and the
body fetch both raise) and no local pattern matched, it returns the
`STATIC_HTML` safe default. -/
theorem detect_total_default (env : ScrapeEnv) (url : String) :
    detect env url ∈ allSourceTypes ∧
    ((checkPlatformPatterns url = none ∧ isFeedUrl url = false ∧
      env.headContentType url = none ∧ env.getText url = none) →
      detect env url = SourceType.STATIC_HTML) := by
  constructor
  · cases h : detect env url <;> simp [allSourceTypes]
  · rintro ⟨h1, h2, h3, h4⟩
    unfold detect
    rw [h1, h2]
    simp only [Bool.false_eq_true, if_false]
    unfold getContentType
    rw [h3]
    unfold analyzeContent
    rw [h4]
    rfl

/-- An environment whose network oracles all fail. -/
def envNoNet : ScrapeEnv :=
  { validUrl := fun _ => true }

/-- C4 witness: a malformed input under an all-failing network. -/
theorem detect_total_default_witness :
    detect envNoNet "not a url" = SourceType.STATIC_HTML ∧
    detect envNoNet "not a url" ∈ allSourceTypes :=
  ⟨(detect_total_default envNoNet "not a url").2 ⟨rfl, rfl, rfl, rfl⟩,
   (detect_total_default envNoNet "not a url").1⟩

/-- An environment answering the HEAD probe with an XML content type. -/
def envXmlCT : ScrapeEnv :=
  { validUrl := fun _ => true, headContentType := fun _ => some "application/xml" }

/-- C5 counterexample: `https://a.com/feed?x=1` has path `/feed` and matches
no platform pattern, yet `detect` does not short-circuit to the feed type:
the feed-shape regexes are anchored at the end of the whole URL string, so
this URL falls through to the network probes — under an all-failing network
it classifies as `STATIC_HTML`, and the result depends on the HEAD response,
i.e. a network request is issued. -/
theorem detect_feed_path_query_counterexample :
    urlparsePath "https://a.com/feed?x=1" = "/feed" ∧
    checkPlatformPatterns "https://a.com/feed?x=1" = none ∧
    isFeedUrl "https://a.com/feed?x=1" = false ∧
    detect envNoNet "https://a.com/feed?x=1" = SourceType.STATIC_HTML ∧
    detect envXmlCT "https://a.com/feed?x=1" = SourceType.RSS_FEED ∧
    detect envNoNet "https://a.com/feed?x=1" ≠ detect envXmlCT "https://a.com/feed?x=1" := by
  refine ⟨by decide, by decide, by decide, by decide, by decide, by decide⟩

/-- C5 (amended): the detector's stages run in strict order and
short-circuit on first match: for every URL matching a platform pattern,
`detect` returns that platform type independently of the network oracles
(no network request influences the result); and for every URL which — as a
full string, case-insensitively — ends with `/feed`, `/rss`, `/atom`
(optionally with a trailing slash) or the extension `.xml`/`.rss` and does
not match a platform pattern, `detect` returns the feed type, again
independently of the network oracles. -/
theorem detect_shortcircuit_amended :
    (∀ (env env' : ScrapeEnv) (url : String) (t : SourceType),
      checkPlatformPatterns url = some t →
      detect env url = t ∧ detect env url = detect env' url) ∧
    (∀ (env env' : ScrapeEnv) (url : String),
      checkPlatformPatterns url = none → isFeedUrl url = true →
      detect env url = SourceType.RSS_FEED ∧ detect env url = detect env' url) := by
  constructor
  · intro env env' url t h
    constructor
    · unfold detect
      rw [h]
    · unfold detect
      rw [h]
  · intro env env' url h1 h2
    constructor
    · unfold detect
      rw [h1, h2]
      rfl
    · unfold detect
      rw [h1, h2]
      rfl

/-- C5 witness: a platform URL and a feed-shaped URL, each classified
without consulting the network. -/
theorem detect_shortcircuit_amended_witness :
    detect envNoNet "https://reddit.com/r/foo" = SourceType.REDDIT ∧
    detect envNoNet "https://a.com/feed" = SourceType.RSS_FEED ∧
    detect envNoNet "https://a.com/feed" = detect envXmlCT "https://a.com/feed" :=
  ⟨(detect_shortcircuit_amended.1 envNoNet envXmlCT "https://reddit.com/r/foo"
      SourceType.REDDIT (by decide)).1,
   (detect_shortcircuit_amended.2 envNoNet envXmlCT "https://a.com/feed"
      (by decide) (by decide)).1,
   (detect_shortcircuit_amended.2 envNoNet envXmlCT "https://a.com/feed"
      (by decide) (by decide)).2⟩

/-- C6: a Reddit subreddit or user URL that does not already end in `.rss`
and is not a comment-thread URL is rewritten before any detection — the
result does not depend on the detector's network oracles — by stripping
whitespace and trailing slashes and appending `.rss`, with the feed source
type forced; the feed type routes to the feed (RSS) extractor; in
particular `https://reddit.com/r/test/` becomes
`https://reddit.com/r/test.rss`. -/
theorem route_reddit_rewrite :
    (∀ (env env' : ScrapeEnv) (url : String),
      (pyIn "reddit.com/r/" url = true ∨ pyIn "reddit.com/user/" url = true) →
      pyEndsWith url ".rss" = false → pyIn "/comments/" url = false →
      route env url = Except.ok (rstripSlash (pyStrip url) ++ ".rss", SourceType.RSS_FEED) ∧
      route env url = route env' url) ∧
    extractorFor SourceType.RSS_FEED = ExtractorKind.rss ∧
    (∀ (env : ScrapeEnv) (cfg : SourceConfig),
      runExtractor env SourceType.RSS_FEED cfg = rssExtract env cfg) ∧
    (∀ env : ScrapeEnv, route env "https://reddit.com/r/test/" =
      Except.ok ("https://reddit.com/r/test.rss", SourceType.RSS_FEED)) := by
  refine ⟨?_, rfl, fun env cfg => rfl, fun env => by rfl⟩
  intro env env' url hin hrss hcom
  have hcond : (pyIn "reddit.com/r/" url || pyIn "reddit.com/user/" url) = true := by
    rcases hin with h | h <;> simp [h]
  constructor
  · unfold route
    rw [hcond]
    simp [hrss, hcom]
  · unfold route
    rw [hcond]
    simp [hrss, hcom]

/-- C6 witness: the rewrite applied to the concrete subreddit URL. -/
theorem route_reddit_rewrite_witness :
    route envNoNet "https://reddit.com/r/test/" =
      Except.ok (rstripSlash (pyStrip "https://reddit.com/r/test/") ++ ".rss",
        SourceType.RSS_FEED) ∧
    route envNoNet "https://reddit.com/r/test/" = route envXmlCT "https://reddit.com/r/test/" :=
  route_reddit_rewrite.1 envNoNet envXmlCT "https://reddit.com/r/test/"
    (Or.inl (by decide)) (by decide) (by decide)

/-- C1 (code bug): for a Reddit subreddit URL that already ends in `.rss`,
and for a stackoverflow.com URL that the rewrite rules pass through without
rewriting, no branch of `scrape_url`'s pre-routing assigns `source_type`,
so the subsequent `source_type.value` read raises `UnboundLocalError`
outside the `try` block and the exception propagates to the caller instead
of an empty list being returned. -/
theorem scrapeUrl_unbound_local (env : ScrapeEnv) (limit : Int) (name : String)
    (h1 : env.validUrl "https://reddit.com/r/test.rss" = true)
    (h2 : env.validUrl "https://stackoverflow.com/feeds" = true) :
    scrape_url env "https://reddit.com/r/test.rss" limit name =
      Except.error "UnboundLocalError: local variable referenced before assignment" ∧
    scrape_url env "https://stackoverflow.com/feeds" limit name =
      Except.error "UnboundLocalError: local variable referenced before assignment" := by
  constructor
  · unfold scrape_url
    rw [h1]
    rfl
  · unfold scrape_url
    rw [h2]
    rfl

/-- C1 witness: the uncaught exception at the concrete failing inputs. -/
theorem scrapeUrl_unbound_local_witness :
    scrape_url envNoNet "https://reddit.com/r/test.rss" 10 "" =
      Except.error "UnboundLocalError: local variable referenced before assignment" ∧
    scrape_url envNoNet "https://stackoverflow.com/feeds" 10 "" =
      Except.error "UnboundLocalError: local variable referenced before assignment" :=
  scrapeUrl_unbound_local envNoNet 10 "" rfl rfl

/-- An environment in which `https://example.com/page` downloads and
extracts to title "Example", text "Hello world" and no date, with "today"
being 2026-10-12. -/
def envStatic : ScrapeEnv :=
  { validUrl := fun _ => true,
    fetchUrl := fun u => if u = "https://example.com/page" then some "PAGE" else none,
    extractData := fun m =>
      if m = "PAGE" then some { title := some "Example", text := some "Hello world" } else none,
    now := ⟨"2026-10-12"⟩ }

/-- C2 counterexample: a static-page extraction invoked with no
caller-supplied name and no date yields a record whose source is the full
original URL, not its bare domain: the orchestrator passes `name or url`
as the config name, the static extractor stores it as the metadata source
name, and that value — being non-empty and different from the raw type
tag — survives conversion. -/
theorem scrapeUrl_static_source_counterexample :
    scrape_url envStatic "https://example.com/page" 10 "" =
      Except.ok [{ title := "Example", link := "https://example.com/page",
                   content := "Hello world", date := "2026-10-12",
                   source := "https://example.com/page" }] ∧
    get_domain_name "https://example.com/page" = "example.com" ∧
    "https://example.com/page" ≠ "example.com" := by
  refine ⟨by rfl, by rfl, by decide⟩

/-- The amended source display name resolution rule, stated from the spec
side: the caller-supplied name when non-empty — unless it equals the raw
source-type tag, in which case the bare domain of the URL is used —
otherwise the item metadata source name when present, non-empty and
different from the raw type tag, otherwise the bare domain. -/
def specResolveSource (callerName : String) (metaName : Option String)
    (typeTag url : String) : String :=
  if callerName ≠ "" then
    (if callerName = typeTag then get_domain_name url else callerName)
  else
    match metaName with
    | some m => if m ≠ "" ∧ m ≠ typeTag then m else get_domain_name url
    | none => get_domain_name url

/-- C2 (amended): the conversion sets the date to the item timestamp
formatted `YYYY-MM-DD`, defaulting to the current date, and resolves the
source display name by `specResolveSource`; and end-to-end, a static-page
extraction invoked with no caller-supplied name and no date yields a record
whose date is today's and whose source equals the original URL itself (the
orchestrator having stored the URL as the default metadata source name),
not its bare domain. -/
theorem convert_source_resolution_amended :
    (∀ (env : ScrapeEnv) (name : String) (st : SourceType) (url : String) (item : ContentItem),
      (convertItem env name st url item).source =
        specResolveSource name (metaGet item.metadata "source_name") st.value url ∧
      (convertItem env name st url item).date = (item.published_at.getD env.now).ymd) ∧
    (∀ (env : ScrapeEnv) (url page : String) (d : TrafilaturaData),
      env.validUrl url = true →
      pyIn "reddit.com/r/" url = false → pyIn "reddit.com/user/" url = false →
      pyIn "stackoverflow.com" url = false →
      detect env url = SourceType.STATIC_HTML →
      pyStartsWith url "https://" = true →
      url ≠ "static_html" →
      env.fetchUrl url = some page →
      env.extractData page = some d →
      d.date = none →
      scrape_url env url 10 "" =
        Except.ok [{ title := d.title.getD "No Title", link := url,
                     content := d.text.getD "", date := env.now.ymd, source := url }]) := by
  constructor
  · intro env name st url item
    refine ⟨?_, rfl⟩
    unfold convertItem specResolveSource
    by_cases hn : name = ""
    · subst hn
      simp only [ne_eq, not_true_eq_false, if_neg, reduceIte]
      cases hm : metaGet item.metadata "source_name" with
      | none => rfl
      | some m =>
        by_cases h1 : m = ""
        · simp [h1]
        · by_cases h2 : m = st.value
          · simp [h1, h2]
          · simp [h1, h2]
    · simp only [ne_eq, hn, not_false_iff, if_pos, reduceIte]
      by_cases h2 : name = st.value
      · simp [h2]
      · simp [hn, h2]
  · intro env url page d hv hr1 hr2 hso hdet hsw hne2 hfetch hext hdate
    have hne : url ≠ "" := by
      intro he
      rw [he] at hsw
      exact absurd hsw (by decide)
    have hroute : route env url = Except.ok (url, SourceType.STATIC_HTML) := by
      unfold route
      rw [hr1, hr2, hso]
      simp only [Bool.or_self, Bool.false_eq_true, if_false]
      rw [hdet]
    have hcfg : mkSourceConfig url url (some SourceType.STATIC_HTML) 10 =
        Except.ok { url := url, name := url, source_type := some SourceType.STATIC_HTML,
                    max_items := 10 } := by
      unfold mkSourceConfig
      rw [hsw]
      have hd : decide (url = "") = false := by simp [hne]
      simp only [hd, Bool.or_true, Bool.not_true, Bool.or_false, Bool.false_eq_true, if_false]
      norm_num
    have hhtml : htmlExtract env
        { url := url, name := url,
          source_type := some SourceType.STATIC_HTML, max_items := 10 } =
        Except.ok [{ source_url := url, source_type := SourceType.STATIC_HTML,
                     title := d.title.getD "No Title", content := d.text.getD "",
                     published_at := none, author := some (d.author.getD "Unknown"),
                     metadata := [("source_name", url)] }] := by
      unfold htmlExtract
      rw [hfetch]
      simp only [hext, hdate]
    have hconv : convertItem env "" SourceType.STATIC_HTML url
        { source_url := url, source_type := SourceType.STATIC_HTML,
          title := d.title.getD "No Title", content := d.text.getD "",
          published_at := none, author := some (d.author.getD "Unknown"),
          metadata := [("source_name", url)] } =
        { title := d.title.getD "No Title", link := url, content := d.text.getD "",
          date := env.now.ymd, source := url } := by
      unfold convertItem
      simp only [metaGet, List.find?, beq_self_eq_true, Option.map_some, Option.getD_none]
      simp [hne, hne2, SourceType.value]
    unfold scrape_url
    rw [hv]
    simp only [Bool.not_true, Bool.false_eq_true, if_false]
    rw [hroute]
    show (match mkSourceConfig url (if "" ≠ "" then "" else url) (some SourceType.STATIC_HTML) 10 with
      | Except.error _ => _
      | Except.ok config => _) = _
    have hname : (if "" ≠ "" then "" else url) = url := by simp
    rw [hname, hcfg]
    show (match runExtractor env SourceType.STATIC_HTML
        { url := url, name := url,
          source_type := some SourceType.STATIC_HTML, max_items := 10 } with
      | Except.error _ => Except.ok []
      | Except.ok items =>
        Except.ok (items.map (convertItem env "" SourceType.STATIC_HTML url))) = _
    have hrun : runExtractor env SourceType.STATIC_HTML
        { url := url, name := url,
          source_type := some SourceType.STATIC_HTML, max_items := 10 } =
        htmlExtract env
          { url := url, name := url,
            source_type := some SourceType.STATIC_HTML, max_items := 10 } := rfl
    rw [hrun, hhtml]
    simp only [List.map]
    rw [hconv]

/-- C2 witness: the amended end-to-end statement applied at the concrete
static-page environment. -/
theorem convert_source_resolution_amended_witness :
    scrape_url envStatic "https://example.com/page" 10 "" =
      Except.ok [{ title := "Example", link := "https://example.com/page",
                   content := "Hello world", date := "2026-10-12",
                   source := "https://example.com/page" }] :=
  convert_source_resolution_amended.2 envStatic "https://example.com/page" "PAGE"
    { title := some "Example", text := some "Hello world" }
    rfl rfl rfl rfl rfl rfl (by decide) rfl rfl rfl

/-- Shared lemma: mapping a fallible function over a list succeeds when it
succeeds on every element, producing the pointwise results in order. -/
theorem mapM_ok_of_forall {α β : Type} (f : α → Except String β) :
    ∀ l : List α, (∀ a ∈ l, ∃ b, f a = Except.ok b) →
      ∃ bs, l.mapM f = Except.ok bs ∧
        List.Forall₂ (fun a b => f a = Except.ok b) l bs := by
  intro l
  induction l with
  | nil => intro _; exact ⟨[], rfl, List.Forall₂.nil⟩
  | cons a l ih =>
    intro h
    obtain ⟨b, hb⟩ := h a (by simp)
    obtain ⟨bs, hbs, hfa⟩ := ih (fun x hx => h x (by simp [hx]))
    refine ⟨b :: bs, ?_, List.Forall₂.cons hb hfa⟩
    rw [List.mapM_cons, hb, hbs]
    rfl

/-- C7: when the feed parses with some list of entries and every entry up to
`max_items` converts, the feed strategy returns exactly the items built from
the first `max_items` entries in feed order — `min(max_items, N)` many, so
exactly `k` when `max_items = k ≤ N` — and a feed with zero entries yields
an empty sequence rather than an error. -/
theorem rssExtract_max_items (env : ScrapeEnv) (cfg : SourceConfig) (feed : Feed)
    (hp : env.feedparse cfg.url = Except.ok feed)
    (hok : ∀ e ∈ feed.entries, ∃ it, mkRssItem cfg e = Except.ok it) :
    ∃ items, rssExtract env cfg = Except.ok items ∧
      List.Forall₂ (fun e it => mkRssItem cfg e = Except.ok it)
        (feed.entries.take cfg.max_items.toNat) items ∧
      items.length = min cfg.max_items.toNat feed.entries.length ∧
      (feed.entries = [] → items = []) := by
  obtain ⟨items, hmap, hfa⟩ :=
    mapM_ok_of_forall (mkRssItem cfg) (feed.entries.take cfg.max_items.toNat)
      (fun e he => hok e (List.take_subset _ _ he))
  refine ⟨items, ?_, hfa, ?_, ?_⟩
  · unfold rssExtract
    rw [hp]
    simp only [hmap]
  · rw [← hfa.length_eq, List.length_take]
  · intro he
    rw [he] at hfa
    simp at hfa
    cases hfa
    rfl

/-- A three-entry feed and a configuration asking for two items. -/
def feed3 : Feed :=
  { entries := [{ title := some "T1", link := some "https://a.com/1", summary := some "S1" },
                { title := some "T2", link := some "https://a.com/2", summary := some "S2" },
                { title := some "T3", link := some "https://a.com/3", summary := some "S3" }] }

/-- An environment serving `feed3` for every feed URL. -/
def envFeed3 : ScrapeEnv :=
  { validUrl := fun _ => true, feedparse := fun _ => Except.ok feed3 }

/-- A config with `max_items = 2` for the three-entry feed. -/
def cfgK2 : SourceConfig :=
  { url := "https://a.com/feed", name := "A", source_type := some SourceType.RSS_FEED,
    max_items := 2 }

/-- C7 witness: two of the three entries are returned. -/
theorem rssExtract_max_items_witness :
    ∃ items, rssExtract envFeed3 cfgK2 = Except.ok items ∧ items.length = 2 := by
  obtain ⟨items, h1, _, h3, _⟩ :=
    rssExtract_max_items envFeed3 cfgK2 feed3 rfl
      (by
        intro e he
        simp [feed3] at he
        rcases he with h | h | h <;> subst h <;> exact ⟨_, rfl⟩)
  exact ⟨items, h1, h3⟩

/-- C8: a feed entry whose link is present, non-empty and not starting with
`http` has its link resolved against the feed URL with `urljoin`; resolving
`/p/1` against base `https://a.com/feed` yields `https://a.com/p/1`; and an
entry carrying no title at all gets the title "No Title". -/
theorem rssItem_link_title :
    (∀ (cfg : SourceConfig) (e : FeedEntry) (it : ContentItem) (l : String),
      mkRssItem cfg e = Except.ok it → e.link = some l → l ≠ "" →
      pyStartsWith l "http" = false → it.source_url = urljoin cfg.url l) ∧
    urljoin "https://a.com/feed" "/p/1" = "https://a.com/p/1" ∧
    (∀ (cfg : SourceConfig) (e : FeedEntry) (it : ContentItem),
      mkRssItem cfg e = Except.ok it → e.title = none → it.title = "No Title") := by
  refine ⟨?_, by rfl, ?_⟩
  · intro cfg e it l hok hl hne hsw
    unfold mkRssItem at hok
    rw [hl] at hok
    simp only [Option.getD_some, hne, hsw, ne_eq, not_false_iff, Bool.not_false,
      Bool.and_true, decide_eq_true_eq] at hok
    simp [hne, hsw] at hok
    split at hok
    · exact absurd hok (by simp)
    · cases hok
      rfl
    · cases hok
      rfl
  · intro cfg e it hok ht
    unfold mkRssItem at hok
    rw [ht] at hok
    simp only [Option.getD_none] at hok
    split at hok
    · exact absurd hok (by simp)
    · cases hok
      rfl
    · cases hok
      rfl

/-- A feed entry with a relative link and no title. -/
def entryRel : FeedEntry :=
  { link := some "/p/1" }

/-- C8 witness: the relative link `/p/1` of a title-less entry resolves to
`https://a.com/p/1` against the feed URL, and the title defaults. -/
theorem rssItem_link_title_witness :
    ∃ it, mkRssItem { url := "https://a.com/feed", name := "A" } entryRel = Except.ok it ∧
      it.source_url = "https://a.com/p/1" ∧ it.title = "No Title" := by
  obtain ⟨it, hit⟩ : ∃ it,
      mkRssItem { url := "https://a.com/feed", name := "A" } entryRel = Except.ok it :=
    ⟨_, rfl⟩
  refine ⟨it, hit, ?_, ?_⟩
  · rw [rssItem_link_title.1 { url := "https://a.com/feed", name := "A" } entryRel it "/p/1"
      hit rfl (by decide) (by decide)]
    exact rssItem_link_title.2.1
  · exact rssItem_link_title.2.2 { url := "https://a.com/feed", name := "A" } entryRel it hit rfl

/-- The per-URL contribution of `scrape_url` to a batch: blank URLs are
skipped, and a strategy failure has already been downgraded to an empty
list inside `scrape_url`. -/
def perUrlItems (env : ScrapeEnv) (limit : Int) (u : String) : List NormRecord :=
  if pyStrip u = "" then []
  else
    match scrape_url env u limit "" with
    | Except.ok r => r
    | Except.error _ => []

/-- Shared lemma: one step of the `scrape_all` loop. -/
theorem scrape_all_cons (env : ScrapeEnv) (u : String) (rest : List String) (limit : Int) :
    scrape_all env (u :: rest) limit =
      (if pyStrip u ≠ "" then
        match scrape_url env u limit "" with
        | Except.error e => Except.error e
        | Except.ok r =>
          match scrape_all env rest limit with
          | Except.error e => Except.error e
          | Except.ok rs => Except.ok (r ++ rs)
      else scrape_all env rest limit) := rfl

/-- C3: (i) whenever every non-blank URL's `scrape_url` call returns (rather
than raising), the batch result is the concatenation of the per-URL results
in input-URL order; (ii) for a batch of three URLs where the strategy
invocation for the middle URL raises, the failing URL contributes an empty
result — the exception is caught inside `scrape_url` — and the batch
returns the records of the other two URLs. -/
theorem scrapeAll_concat_and_isolation :
    (∀ (env : ScrapeEnv) (urls : List String) (limit : Int),
      (∀ u ∈ urls, pyStrip u ≠ "" → ∃ r, scrape_url env u limit "" = Except.ok r) →
      scrape_all env urls limit = Except.ok ((urls.map (perUrlItems env limit)).flatten)) ∧
    (∀ (env : ScrapeEnv) (limit : Int) (u1 u2 u3 u2' : String) (st2 : SourceType)
        (cfg2 : SourceConfig) (e : String) (r1 r3 : List NormRecord),
      pyStrip u1 ≠ "" → pyStrip u2 ≠ "" → pyStrip u3 ≠ "" →
      scrape_url env u1 limit "" = Except.ok r1 →
      env.validUrl u2 = true →
      route env u2 = Except.ok (u2', st2) →
      mkSourceConfig u2' u2' (some st2) limit = Except.ok cfg2 →
      runExtractor env st2 cfg2 = Except.error e →
      scrape_url env u3 limit "" = Except.ok r3 →
      scrape_all env [u1, u2, u3] limit = Except.ok (r1 ++ r3)) := by
  constructor
  · intro env urls limit h
    induction urls with
    | nil => rfl
    | cons u rest ih =>
      rw [scrape_all_cons, ih (fun x hx hb => h x (by simp [hx]) hb)]
      by_cases hu : pyStrip u = ""
      · rw [if_neg (by simp [hu])]
        simp [perUrlItems, hu]
      · obtain ⟨r, hr⟩ := h u (by simp) hu
        rw [if_pos hu, hr]
        simp [perUrlItems, hu, hr]
  · intro env limit u1 u2 u3 u2' st2 cfg2 e r1 r3 ht1 ht2 ht3 hok1 hv2 hroute2 hcfg2 hrun2 hok3
    have hname : (if ("" : String) ≠ "" then "" else u2') = u2' := by simp
    have hmid : scrape_url env u2 limit "" = Except.ok [] := by
      unfold scrape_url
      rw [hv2]
      simp only [Bool.not_true, Bool.false_eq_true, if_false]
      rw [hroute2]
      simp only [hname, hcfg2, hrun2]
    simp [scrape_all, ht1, ht2, ht3, hok1, hmid, hok3]

/-- A one-entry feed titled T1 and a one-entry feed titled T3. -/
def feedA : Feed :=
  { entries := [{ title := some "T1", link := some "https://a.com/1", summary := some "S1" }] }

/-- The second one-entry feed for the batch scenario. -/
def feedB : Feed :=
  { entries := [{ title := some "T3", link := some "https://b.com/3", summary := some "S3" }] }

/-- A batch environment: two working feeds and no Playwright, so the
dynamic strategy chosen for the Reddit comment-thread URL raises. -/
def envBatch : ScrapeEnv :=
  { validUrl := fun _ => true,
    playwrightAvailable := false,
    feedparse := fun u =>
      if u = "https://a.com/feed" then Except.ok feedA
      else if u = "https://b.com/rss" then Except.ok feedB
      else Except.error "no feed",
    now := ⟨"2026-10-12"⟩ }

/-- C3 witness: of three URLs, the middle one routes to the dynamic
strategy, which raises for a missing Playwright dependency; the batch
returns the two feed records. -/
theorem scrapeAll_concat_and_isolation_witness :
    scrape_all envBatch
      ["https://a.com/feed", "https://reddit.com/r/x/comments/1/t", "https://b.com/rss"] 8 =
      Except.ok
        ([{ title := "T1", link := "https://a.com/1", content := "S1",
            date := "2026-10-12", source := "https://a.com/feed" }] ++
         [{ title := "T3", link := "https://b.com/3", content := "S3",
            date := "2026-10-12", source := "https://b.com/rss" }]) :=
  scrapeAll_concat_and_isolation.2 envBatch 8
    "https://a.com/feed" "https://reddit.com/r/x/comments/1/t" "https://b.com/rss"
    "https://reddit.com/r/x/comments/1/t" SourceType.REDDIT
    { url := "https://reddit.com/r/x/comments/1/t",
      name := "https://reddit.com/r/x/comments/1/t",
      source_type := some SourceType.REDDIT, max_items := 8 }
    "Playwright dependency missing." _ _
    (by decide) (by decide) (by decide) rfl rfl rfl rfl rfl rfl
